import Mathlib

/-!
Verification development for the Ela Kitty stray-cat reporting application.

The repository is a Next.js client over Supabase.  The definitions below are a
shallow embedding of the claim-relevant fragments of the source:

* components/MapView.js          (delete handler, zone rendering, fetches)
* an earlier MapView revision    (src/unnamed/part_001, delete handler)
* components/BoundaryDrawer.js   (the _save handler and the two SanctuaryForm
                                  revisions concatenated in that file: form
                                  submit, opening-hours codec, geocode)
* pages/admin.js                 (src/unnamed/part_003: switchRole,
                                  saveSanctuary, deleteSanctuary)

JavaScript null or undefined string fields are modelled as Option String with
none for null; JS truthiness of such a field is none or the empty string being
falsy.  Database calls are modelled as lists of issued effects or as pure
filters over an in-memory table.
-/

namespace ElaKitty

/-! ### Roles, viewers, sightings -/

/-- Wire values of the profile role column: "user", "caregiver", "admin".
An anonymous (not logged in) viewer is modelled as an absent viewer. -/
inductive Role
  | user
  | caregiver
  | admin
deriving DecidableEq, Repr

/-- A logged-in viewer: the Supabase auth user id plus the profile role. -/
structure Viewer where
  id : String
  role : Role
deriving DecidableEq, Repr

/-- Wire values of the sighting visibility column, from the MapView form
select: "public", "caregiver" (caregivers only), "admin" (admins only). -/
inductive Visibility
  | publicVis
  | caregiverOnly
  | adminOnly
deriving DecidableEq, Repr

/-- A sighting row, restricted to the claim-relevant columns. -/
structure Sighting where
  id : String
  user_id : String
  visibility : Visibility
deriving DecidableEq, Repr

/-- components/MapView.js: the delete button is rendered only when
user and s.user_id === user.id both hold, so deletion capability is
ownership by the logged-in user; no role enters the condition. -/
def canDelete (s : Sighting) (viewer : Option Viewer) : Bool :=
  match viewer with
  | none => false
  | some u => s.user_id == u.id

/-- Modelled from the spec: the visibility policy (spec section 4.2) is not in
src/ — the client fetches sightings unfiltered and enforcement lives in the
storage layer access rules, which are not part of the repository files.  The
table: Public is visible to everyone; CaregiverOnly to caregivers and admins;
AdminOnly to admins only; ownership always grants visibility and takes
precedence over the role table. -/
def canView (s : Sighting) (viewer : Option Viewer) : Bool :=
  match viewer with
  | none => s.visibility == .publicVis
  | some u =>
    if u.id == s.user_id then true
    else
      match s.visibility, u.role with
      | .publicVis, _ => true
      | .caregiverOnly, .caregiver => true
      | .caregiverOnly, .admin => true
      | .adminOnly, .admin => true
      | _, _ => false

/-! ### Character-level helpers for JS string primitives

String.prototype.trim, String.prototype.includes and String.prototype.split
are modelled over the character list of the Lean string so that they reduce
in the kernel. -/

/-- JS String.prototype.trim: strip whitespace from both ends. -/
def jsTrim (s : String) : String :=
  String.mk (((s.data.dropWhile Char.isWhitespace).reverse.dropWhile
    Char.isWhitespace).reverse)

/-- JS v.includes(dash): the string contains a dash character. -/
def containsDash (s : String) : Bool :=
  s.data.any (fun c => c == '-')

/-- Worker for JS v.split(dash): split the character list at dashes,
accumulating the current segment in reverse. -/
def splitDashAux : List Char → List Char → List String
  | [], acc => [String.mk acc.reverse]
  | c :: cs, acc =>
    if c = '-' then String.mk acc.reverse :: splitDashAux cs []
    else splitDashAux cs (c :: acc)

/-- JS v.split(dash). -/
def splitDash (s : String) : List String :=
  splitDashAux s.data []

/-- JS truthiness of a nullable string field: null and the empty string are
falsy, every other string is truthy. -/
def jsTruthy : Option String → Bool
  | none => false
  | some s => s != ""

/-! ### Opening hours codec (components/SanctuaryForm, phase-1 revision)

The form keeps, per weekday, an object with open, close and closed fields;
the wire form keeps a compact string per weekday. -/

/-- Per-weekday form state: open and close are time strings such as "09:00";
closed is the checkbox. -/
structure HoursDay where
  open_ : String
  close : String
  closed : Bool
deriving DecidableEq, Repr

/-- The default day produced by toHoursObj: open 09:00, close 17:00. -/
def defaultHoursDay : HoursDay :=
  { open_ := "09:00", close := "17:00", closed := false }

/-- Form-side opening hours: one HoursDay per weekday mon..sun. -/
structure OpeningHours where
  mon : HoursDay
  tue : HoursDay
  wed : HoursDay
  thu : HoursDay
  fri : HoursDay
  sat : HoursDay
  sun : HoursDay
deriving DecidableEq, Repr

/-- Wire-side opening hours: one compact string per weekday mon..sun. -/
structure WireHours where
  mon : String
  tue : String
  wed : String
  thu : String
  fri : String
  sat : String
  sun : String
deriving DecidableEq, Repr

/-- handleSubmit, per-day serialization: closed days become the literal
"closed", open days become open dash close. -/
def serializeDay (h : HoursDay) : String :=
  if h.closed then "closed" else h.open_ ++ "-" ++ h.close

/-- handleSubmit: the whole week serialized day by day. -/
def serializeHours (o : OpeningHours) : WireHours :=
  { mon := serializeDay o.mon, tue := serializeDay o.tue
    wed := serializeDay o.wed, thu := serializeDay o.thu
    fri := serializeDay o.fri, sat := serializeDay o.sat
    sun := serializeDay o.sun }

/-- toHoursObj, per-day branch on a present string value: the literal
"closed" gives the default day marked closed; a string containing a dash is
split at dashes and the first two segments become open and close; anything
else gives the default day. -/
def parseHoursDay (v : String) : HoursDay :=
  if v = "closed" then { defaultHoursDay with closed := true }
  else if containsDash v then
    { open_ := (splitDash v).headD ""
      close := ((splitDash v).drop 1).headD "", closed := false }
  else defaultHoursDay

/-- toHoursObj on a present wire object. -/
def toHoursObj (w : WireHours) : OpeningHours :=
  { mon := parseHoursDay w.mon, tue := parseHoursDay w.tue
    wed := parseHoursDay w.wed, thu := parseHoursDay w.thu
    fri := parseHoursDay w.fri, sat := parseHoursDay w.sat
    sun := parseHoursDay w.sun }

/-- toHoursObj when the stored raw value is null: every day defaults. -/
def toHoursObjOpt (raw : Option WireHours) : OpeningHours :=
  match raw with
  | none =>
    { mon := defaultHoursDay, tue := defaultHoursDay, wed := defaultHoursDay
      thu := defaultHoursDay, fri := defaultHoursDay, sat := defaultHoursDay
      sun := defaultHoursDay }
  | some w => toHoursObj w

/-! ### Sanctuary form and save (components/SanctuaryForm, phase-1 revision)

The form state is modelled with the claim-relevant fields; the remaining
pass-through string fields (contact, links, services, logo) do not interact
with the geometry or hours logic and are elided.  Numeric inputs hold their
input text, so latitude, longitude and radius_km are strings (radius_km and
boundary are nullable). -/

/-- The service-area mode radio: "radius" or "polygon". -/
inductive AreaMode
  | radius
  | polygon
deriving DecidableEq, Repr

/-- Claim-relevant SanctuaryForm state. -/
structure SanctuaryFormState where
  id : Option String
  name : String
  latitude : String
  longitude : String
  radius_km : Option String
  boundary : Option String
  approved : Bool
  opening_hours : OpeningHours
deriving DecidableEq, Repr

/-- The object handed to onSave (and then to the storage layer): the form
after handleSubmit nulled the inactive geometry field and compacted the
opening hours. -/
structure SanctuaryWire where
  id : Option String
  name : String
  latitude : String
  longitude : String
  radius_km : Option String
  boundary : Option String
  approved : Bool
  opening_hours : WireHours
deriving DecidableEq, Repr

/-- handleSubmit of the phase-1 SanctuaryForm: validates name (trimmed),
latitude and longitude; in radius mode requires a truthy radius_km and nulls
the boundary, in polygon mode requires a truthy boundary and nulls
radius_km; serializes the opening hours; hands the result to onSave.
none models an early return via alert (no save). -/
def handleSubmit (mode : AreaMode) (form : SanctuaryFormState) :
    Option SanctuaryWire :=
  if jsTrim form.name == "" then none
  else if form.latitude == "" || form.longitude == "" then none
  else
    match mode with
    | .radius =>
      if !jsTruthy form.radius_km then none
      else some
        { id := form.id, name := form.name, latitude := form.latitude
          longitude := form.longitude, radius_km := form.radius_km
          boundary := none, approved := form.approved
          opening_hours := serializeHours form.opening_hours }
    | .polygon =>
      if !jsTruthy form.boundary then none
      else some
        { id := form.id, name := form.name, latitude := form.latitude
          longitude := form.longitude, radius_km := none
          boundary := form.boundary, approved := form.approved
          opening_hours := serializeHours form.opening_hours }

/-! ### Sighting deletion (MapView handleDelete, current and earlier revision) -/

/-- Database operations a delete handler can issue, in issue order. -/
inductive DbOp
  | insertDeletionLog (sightingId userId reason : String)
  | deleteSighting (sightingId : String)
deriving DecidableEq, Repr

/-- The environment of one deletion attempt: the logged-in user (none when
logged out), the window.prompt result (none when cancelled), and whether the
deletion_logs insert and the sightings delete would succeed. -/
structure DeleteEnv where
  user : Option String
  promptReason : Option String
  logWriteOk : Bool
  deleteOk : Bool
deriving DecidableEq, Repr

/-- handleDelete of components/MapView.js (current revision): requires a
logged-in user and a truthy reason, then awaits the deletion_logs insert and
the sightings delete in that order.  Neither result is inspected: the delete
is issued even when the audit insert failed. -/
def handleDelete_current (env : DeleteEnv) (s : Sighting) : List DbOp :=
  match env.user with
  | none => []
  | some uid =>
    match env.promptReason with
    | none => []
    | some reason =>
      if reason == "" then []
      else [.insertDeletionLog s.id uid reason, .deleteSighting s.id]

/-- handleDelete of the earlier MapView revision (src/unnamed/part_001):
requires a logged-in user and a non-blank reason, inserts the trimmed reason
into deletion_logs, and aborts — no delete issued — when that insert errors. -/
def handleDelete_legacy (env : DeleteEnv) (s : Sighting) : List DbOp :=
  match env.user with
  | none => []
  | some uid =>
    match env.promptReason with
    | none => []
    | some reason =>
      if reason == "" || jsTrim reason == "" then []
      else if env.logWriteOk then
        [.insertDeletionLog s.id uid (jsTrim reason), .deleteSighting s.id]
      else [.insertDeletionLog s.id uid (jsTrim reason)]

/-- The sighting row survives the attempt unless a delete was issued and the
delete call succeeds. -/
def sightingRemains (env : DeleteEnv) (s : Sighting) (trace : List DbOp) :
    Bool :=
  !(trace.contains (DbOp.deleteSighting s.id) && env.deleteOk)

/-! ### Admin operations (pages/admin.js) -/

/-- Network or storage effects the admin page can issue. -/
inductive AdminEffect
  | profileRoleUpdate (targetId newRole : String)
  | sanctuaryUpdate (sid : String) (w : SanctuaryWire)
  | sanctuaryInsert (w : SanctuaryWire)
  | assignmentsDelete (sid : String)
  | assignmentsInsert (rows : List (String × String))
  | sanctuaryDelete (sid : String)
deriving DecidableEq, Repr

/-- switchRole: guarded by myRole !== admin, then updates the target profile
role. -/
def switchRole (myRole : String) (targetId newRole : String) :
    List AdminEffect :=
  if myRole != "admin" then []
  else [.profileRoleUpdate targetId newRole]

/-- saveSanctuary: guarded by myRole !== admin.  With an id it updates the
row and clears the caregiver assignments; without one it inserts (insertRes
is the new row id, none when the insert errored, which aborts).  Finally the
assignment rows, caregiver paired with sanctuary id, are inserted when any
caregivers are assigned. -/
def saveSanctuary (myRole : String) (w : SanctuaryWire)
    (assigned : List String) (insertRes : Option String) :
    List AdminEffect :=
  if myRole != "admin" then []
  else
    match w.id with
    | some sid =>
      [.sanctuaryUpdate sid w, .assignmentsDelete sid] ++
        (if assigned.length != 0 then
          [.assignmentsInsert (assigned.map (fun cid => (cid, sid)))]
        else [])
    | none =>
      match insertRes with
      | none => [.sanctuaryInsert w]
      | some sid =>
        [.sanctuaryInsert w] ++
          (if assigned.length != 0 then
            [.assignmentsInsert (assigned.map (fun cid => (cid, sid)))]
          else [])

/-- deleteSanctuary: guarded by myRole !== admin and a confirm dialog, then
deletes the row. -/
def deleteSanctuary (myRole : String) (confirmed : Bool) (sid : String) :
    List AdminEffect :=
  if myRole != "admin" then []
  else if !confirmed then []
  else [.sanctuaryDelete sid]

/-! ### Public sanctuary queries and zone rendering (components/MapView.js) -/

/-- A sanctuaries table row with the columns selected by MapView. -/
structure SanctuaryRow where
  id : String
  name : String
  latitude : String
  longitude : String
  radius_km : Option String
  boundary : Option String
  logo_url : Option String
  approved : Bool
deriving DecidableEq, Repr

/-- The zones fetch: select from sanctuaries filtered by eq approved true. -/
def fetchZones (table : List SanctuaryRow) : List SanctuaryRow :=
  table.filter (fun r => r.approved)

/-- A sanctuary centre marker derived from a fetched zone row. -/
structure SanctuaryMarker where
  id : String
  name : String
  lat : String
  lng : String
  logo : Option String
deriving DecidableEq, Repr

/-- The marker projection applied to every fetched zone row. -/
def markerOf (z : SanctuaryRow) : SanctuaryMarker :=
  { id := z.id, name := z.name, lat := z.latitude, lng := z.longitude
    logo := z.logo_url }

/-- setSanctuaries: the fetched zone rows mapped to centre markers. -/
def fetchSanctuaryMarkers (table : List SanctuaryRow) :
    List SanctuaryMarker :=
  (fetchZones table).map markerOf

/-- What MapView renders for one zone: a GeoJSON polygon layer from the
parsed boundary text, or a circle at the centre with radius_km scaled to
metres. -/
inductive ZoneRendering
  | polygonLayer (boundaryJson : String)
  | circleLayer (lat lng : String) (radius_km : Option String)
deriving DecidableEq, Repr

/-- The zone branch in MapView: z.boundary truthy renders the GeoJSON layer,
otherwise the circle. -/
def renderZone (z : SanctuaryRow) : ZoneRendering :=
  match z.boundary with
  | some b => if b != "" then .polygonLayer b
    else .circleLayer z.latitude z.longitude z.radius_km
  | none => .circleLayer z.latitude z.longitude z.radius_km

/-- A saved wire object as it would come back in a zones fetch (the insert
or update stores the wire fields verbatim). -/
def zoneOfWire (rowId : String) (w : SanctuaryWire) : SanctuaryRow :=
  { id := rowId, name := w.name, latitude := w.latitude
    longitude := w.longitude, radius_km := w.radius_km
    boundary := w.boundary, logo_url := none, approved := w.approved }

/-! ### Boundary drawing (components/BoundaryDrawer.js) -/

/-- A drawn leaflet layer, reduced to the vertex ring of its GeoJSON:
latitude and longitude as rationals. -/
structure DrawnLayer where
  outline : List (ℚ × ℚ)
deriving DecidableEq, Repr

/-- A draw or edit event: the edited layers list and the created layer. -/
structure DrawEvent where
  editedLayers : List DrawnLayer
  createdLayer : DrawnLayer
deriving DecidableEq, Repr

/-- The layer _save picks: e.layers.getLayers()[0] when present (edit),
otherwise e.layer (create). -/
def layerOf (e : DrawEvent) : DrawnLayer :=
  e.editedLayers.headD e.createdLayer

/-- The _save handler of BoundaryDrawer: converts the picked layer to
GeoJSON and hands it straight to onSave.  There is no validation branch, so
the result is always some outline. -/
def saveDrawnShape (e : DrawEvent) : Option (List (ℚ × ℚ)) :=
  some (layerOf e).outline

/-- Number of distinct vertices of an outline (the degeneracy notion named
by the spec). -/
def distinctVertexCount (vs : List (ℚ × ℚ)) : Nat :=
  vs.dedup.length

/-- Twice the signed (shoelace) area of an outline, the zero-area notion
named by the spec. -/
def shoelace2 (vs : List (ℚ × ℚ)) : ℚ :=
  match vs with
  | [] => 0
  | v₀ :: _ =>
    let rec go : List (ℚ × ℚ) → ℚ
      | [] => 0
      | [p] => p.1 * v₀.2 - v₀.1 * p.2
      | p :: q :: rest => (p.1 * q.2 - q.1 * p.2) + go (q :: rest)
    go vs

/-- Degenerate input in the sense of the spec: fewer than 3 distinct
vertices, or zero enclosed area. -/
def degenerateOutline (vs : List (ℚ × ℚ)) : Bool :=
  distinctVertexCount vs < 3 || shoelace2 vs == 0

/-! ### Forward geocoding (components/SanctuaryForm geocode) -/

/-- Outcome of the Nominatim fetch: a thrown error (network or JSON), or the
parsed result array of lat and lon strings. -/
inductive GeocodeOutcome
  | fetchFailed
  | results (rows : List (String × String))
deriving DecidableEq, Repr

/-- The geocode handler: a blank address returns without fetching; a failed
fetch alerts; an empty result array alerts; only a non-empty result array
overwrites latitude and longitude with the formatted first result.  fmt
models Number(x).toFixed(6). -/
def geocodeUpdate (fmt : String → String) (address : String)
    (outcome : GeocodeOutcome) (form : SanctuaryFormState) :
    SanctuaryFormState :=
  if jsTrim address == "" then form
  else
    match outcome with
    | .fetchFailed => form
    | .results [] => form
    | .results ((lat, lon) :: _) =>
      { form with latitude := fmt lat, longitude := fmt lon }

/-! ### Sample values used by witnesses -/

/-- A week of default opening hours. -/
def sampleHours : OpeningHours :=
  { mon := defaultHoursDay, tue := defaultHoursDay, wed := defaultHoursDay
    thu := defaultHoursDay, fri := defaultHoursDay, sat := defaultHoursDay
    sun := defaultHoursDay }

/-- A filled-in sanctuary form. -/
def sampleForm : SanctuaryFormState :=
  { id := none, name := "A", latitude := "1", longitude := "2"
    radius_km := some "5", boundary := some "gjson", approved := true
    opening_hours := sampleHours }

/-- The wire object a radius-mode submit of sampleForm produces. -/
def sampleWireR : SanctuaryWire :=
  { id := none, name := "A", latitude := "1", longitude := "2"
    radius_km := some "5", boundary := none, approved := true
    opening_hours := serializeHours sampleHours }

/-- The wire object a polygon-mode submit of sampleForm produces. -/
def sampleWireP : SanctuaryWire :=
  { id := none, name := "A", latitude := "1", longitude := "2"
    radius_km := none, boundary := some "gjson", approved := true
    opening_hours := serializeHours sampleHours }

/-- An approved radius-only sanctuaries row. -/
def sampleRowApproved : SanctuaryRow :=
  { id := "z1", name := "S", latitude := "1", longitude := "2"
    radius_km := some "5", boundary := none, logo_url := none
    approved := true }

/-- A week whose monday is open 08:00 to 12:00 and whose tuesday is closed
with non-default stored times. -/
def sampleWeek : OpeningHours :=
  { sampleHours with
    mon := { open_ := "08:00", close := "12:00", closed := false }
    tue := { open_ := "10:00", close := "11:00", closed := true } }

/-! ### Helper lemmas on the string primitives -/

theorem data_append (s t : String) : (s ++ t).data = s.data ++ t.data := by
  cases s; cases t; rfl

theorem mk_data (s : String) : String.mk s.data = s := by
  cases s; rfl

theorem splitDashAux_no_dash (l : List Char) (acc : List Char)
    (h : l.any (fun c => c == '-') = false) :
    splitDashAux l acc = [String.mk (acc.reverse ++ l)] := by
  induction l generalizing acc with
  | nil => simp [splitDashAux]
  | cons c cs ih =>
    simp only [List.any_cons, Bool.or_eq_false_iff, beq_eq_false_iff_ne] at h
    simp only [splitDashAux, if_neg h.1, ih _ h.2]
    simp

theorem splitDashAux_append (l₁ l₂ : List Char) (acc : List Char)
    (h : l₁.any (fun c => c == '-') = false) :
    splitDashAux (l₁ ++ '-' :: l₂) acc =
      String.mk (acc.reverse ++ l₁) :: splitDashAux l₂ [] := by
  induction l₁ generalizing acc with
  | nil => simp [splitDashAux]
  | cons c cs ih =>
    simp only [List.any_cons, Bool.or_eq_false_iff, beq_eq_false_iff_ne] at h
    rw [List.cons_append]
    simp only [splitDashAux, if_neg h.1]
    rw [ih (c :: acc) h.2]
    simp

theorem splitDash_serialized (o c : String)
    (ho : containsDash o = false) (hc : containsDash c = false) :
    splitDash (o ++ "-" ++ c) = [o, c] := by
  unfold containsDash at ho hc
  unfold splitDash
  rw [data_append, data_append]
  have hdash : ("-" : String).data = ['-'] := rfl
  rw [hdash, List.append_assoc, List.singleton_append,
    splitDashAux_append _ _ _ ho, splitDashAux_no_dash _ _ hc]
  simp [mk_data]

theorem serialized_data (o c : String) :
    (o ++ "-" ++ c).data = o.data ++ '-' :: c.data := by
  rw [data_append, data_append]
  have hdash : ("-" : String).data = ['-'] := rfl
  rw [hdash, List.append_assoc, List.singleton_append]

theorem serialized_ne_closed (o c : String) : o ++ "-" ++ c ≠ "closed" := by
  intro heq
  have hdata := congrArg String.data heq
  rw [serialized_data] at hdata
  have hmem : ('-' : Char) ∈ ("closed" : String).data := by
    rw [← hdata]; simp
  exact absurd hmem (by decide)

theorem serialized_containsDash (o c : String) :
    containsDash (o ++ "-" ++ c) = true := by
  unfold containsDash
  rw [serialized_data]
  simp

/-- The day a closed-day-lossy round trip produces: open days unchanged,
closed days reset to the default times. -/
def roundDay (d : HoursDay) : HoursDay :=
  if d.closed then { defaultHoursDay with closed := true } else d

theorem parse_serialize_day (d : HoursDay)
    (ho : containsDash d.open_ = false) (hc : containsDash d.close = false) :
    parseHoursDay (serializeDay d) = roundDay d := by
  obtain ⟨o, c, closed⟩ := d
  cases closed with
  | true => rfl
  | false =>
    show parseHoursDay (o ++ "-" ++ c) =
      ({ open_ := o, close := c, closed := false } : HoursDay)
    unfold parseHoursDay
    rw [if_neg (serialized_ne_closed o c), if_pos (serialized_containsDash o c),
      splitDash_serialized o c ho hc]
    rfl

/-! ### Claim theorems -/

set_option maxRecDepth 8000 in
/-- C1: the current MapView handleDelete writes the audit-log record before
the delete, but it ignores the outcome of that write: at a concrete attempt
where the deletion_logs insert fails, the sightings delete is still issued
and the sighting does not remain, contradicting the required sequencing.
The earlier MapView revision (part_001) implements the claimed behaviour:
on the same failing input it stops after the audit insert and the sighting
remains. -/
theorem C1_audit_failure_not_aborted :
    DbOp.deleteSighting "s1" ∈
      handleDelete_current ⟨some "u1", some "spam", false, true⟩
        ⟨"s1", "u1", .publicVis⟩ ∧
    sightingRemains ⟨some "u1", some "spam", false, true⟩
      ⟨"s1", "u1", .publicVis⟩
      (handleDelete_current ⟨some "u1", some "spam", false, true⟩
        ⟨"s1", "u1", .publicVis⟩) = false ∧
    handleDelete_legacy ⟨some "u1", some "spam", false, true⟩
      ⟨"s1", "u1", .publicVis⟩ =
      [.insertDeletionLog "s1" "u1" "spam"] ∧
    sightingRemains ⟨some "u1", some "spam", false, true⟩
      ⟨"s1", "u1", .publicVis⟩
      (handleDelete_legacy ⟨some "u1", some "spam", false, true⟩
        ⟨"s1", "u1", .publicVis⟩) = true := by
  decide

/-- C2: canDelete is ownership and nothing else — true for a logged-in
viewer exactly when the viewer id equals the sighting owner id, whatever the
role (so in particular false for every non-owner, Admin included), and false
for a logged-out viewer. -/
theorem C2_canDelete_iff_owner (s : Sighting) (v : Viewer) :
    (canDelete s (some v) = true ↔ v.id = s.user_id) ∧
    canDelete s none = false := by
  constructor
  · simp only [canDelete, beq_iff_eq]
    exact eq_comm
  · rfl

/-- C3: whenever the phase-1 sanctuary form submit succeeds, the saved
object carries exactly one geometry: radius mode nulls the boundary, polygon
mode nulls radius_km, and the two are never both set. -/
theorem C3_saved_geometry_exclusive (mode : AreaMode)
    (form : SanctuaryFormState) (w : SanctuaryWire)
    (h : handleSubmit mode form = some w) :
    (mode = .radius → w.boundary = none) ∧
    (mode = .polygon → w.radius_km = none) ∧
    ¬(w.radius_km ≠ none ∧ w.boundary ≠ none) := by
  cases mode with
  | radius =>
    simp only [handleSubmit] at h
    split at h
    · simp at h
    split at h
    · simp at h
    split at h
    · simp at h
    obtain rfl : _ = w := Option.some.inj h
    refine ⟨fun _ => rfl, ?_, ?_⟩
    · intro hc; cases hc
    · simp
  | polygon =>
    simp only [handleSubmit] at h
    split at h
    · simp at h
    split at h
    · simp at h
    split at h
    · simp at h
    obtain rfl : _ = w := Option.some.inj h
    refine ⟨?_, fun _ => rfl, ?_⟩
    · intro hc; cases hc
    · simp

/-- C3 witness: a radius-mode submit of the sample form. -/
theorem C3_saved_geometry_exclusive_witness :
    (AreaMode.radius = AreaMode.radius → sampleWireR.boundary = none) ∧
    (AreaMode.radius = AreaMode.polygon → sampleWireR.radius_km = none) ∧
    ¬(sampleWireR.radius_km ≠ none ∧ sampleWireR.boundary ≠ none) :=
  C3_saved_geometry_exclusive .radius sampleForm sampleWireR (by decide)

/-- C4 counterexample: the _save handler of BoundaryDrawer accepts a
two-vertex (hence degenerate) drawn shape and hands it to onSave unchanged,
so degenerate input is not rejected as the claim states. -/
theorem C4_counterexample_degenerate_accepted :
    degenerateOutline [((0 : ℚ), (0 : ℚ)), (1, 0)] = true ∧
    saveDrawnShape ⟨[], ⟨[((0 : ℚ), (0 : ℚ)), (1, 0)]⟩⟩ =
      some [((0 : ℚ), (0 : ℚ)), (1, 0)] := by
  decide

/-- C4 amended: _save performs no validation at all — every drawn or edited
shape, the degenerate ones included, is accepted and handed back verbatim. -/
theorem C4_no_validation (e : DrawEvent)
    (_h : degenerateOutline (layerOf e).outline = true) :
    saveDrawnShape e = some (layerOf e).outline := rfl

/-- C4 witness: a degenerate edited layer is accepted. -/
theorem C4_no_validation_witness :
    saveDrawnShape ⟨[⟨[((0 : ℚ), (0 : ℚ)), (1, 0)]⟩], ⟨[]⟩⟩ =
      some [((0 : ℚ), (0 : ℚ)), (1, 0)] :=
  C4_no_validation ⟨[⟨[((0 : ℚ), (0 : ℚ)), (1, 0)]⟩], ⟨[]⟩⟩ (by decide)

/-- C5: a viewer whose role is not admin gets an empty effect list from
switchRole, saveSanctuary and deleteSanctuary — every one of the three
returns before any network or storage call. -/
theorem C5_non_admin_no_effects (myRole : String) (h : myRole ≠ "admin")
    (targetId newRole : String) (w : SanctuaryWire)
    (assigned : List String) (insertRes : Option String) (confirmed : Bool)
    (sid : String) :
    switchRole myRole targetId newRole = [] ∧
    saveSanctuary myRole w assigned insertRes = [] ∧
    deleteSanctuary myRole confirmed sid = [] := by
  refine ⟨?_, ?_, ?_⟩ <;>
    simp [switchRole, saveSanctuary, deleteSanctuary, bne_iff_ne, h]

/-- C5 witness: a caregiver attempting all three operations. -/
theorem C5_non_admin_no_effects_witness :
    switchRole "caregiver" "t1" "admin" = [] ∧
    saveSanctuary "caregiver" sampleWireR ["c1"] none = [] ∧
    deleteSanctuary "caregiver" true "s9" = [] :=
  C5_non_admin_no_effects "caregiver" (by decide) "t1" "admin" sampleWireR
    ["c1"] none true "s9"

/-- C6: against the spec-modelled visibility policy, an AdminOnly sighting
is visible to its owner whatever the owner role, and invisible to any other
logged-in user who is neither caregiver nor admin. -/
theorem C6_adminOnly_owner_precedence (s : Sighting) (v : Viewer)
    (hvis : s.visibility = .adminOnly) :
    (v.id = s.user_id → canView s (some v) = true) ∧
    (v.id ≠ s.user_id → v.role ≠ .caregiver → v.role ≠ .admin →
      canView s (some v) = false) := by
  obtain ⟨sid, owner, vis⟩ := s
  obtain ⟨vid, vrole⟩ := v
  subst hvis
  constructor
  · intro hown
    simp_all [canView]
  · intro hne hcg had
    cases vrole <;> simp_all [canView]

/-- C6 witness: the owner with plain user role sees the AdminOnly sighting;
a different plain user does not. -/
theorem C6_adminOnly_owner_precedence_witness :
    canView ⟨"s1", "owner", .adminOnly⟩ (some ⟨"owner", .user⟩) = true ∧
    canView ⟨"s1", "owner", .adminOnly⟩ (some ⟨"u2", .user⟩) = false :=
  ⟨(C6_adminOnly_owner_precedence ⟨"s1", "owner", .adminOnly⟩
      ⟨"owner", .user⟩ rfl).1 rfl,
   (C6_adminOnly_owner_precedence ⟨"s1", "owner", .adminOnly⟩
      ⟨"u2", .user⟩ rfl).2 (by decide) (by decide) (by decide)⟩

/-- C7: the zones fetch filters on approved = true, so every zone row and
every derived sanctuary marker shown on the public map comes from an
approved sanctuary. -/
theorem C7_public_queries_only_approved (table : List SanctuaryRow) :
    (∀ z ∈ fetchZones table, z.approved = true) ∧
    (∀ m ∈ fetchSanctuaryMarkers table,
      ∃ z ∈ fetchZones table, z.approved = true ∧ m = markerOf z) := by
  constructor
  · intro z hz
    exact (List.mem_filter.mp hz).2
  · intro m hm
    obtain ⟨z, hz, rfl⟩ := List.mem_map.mp hm
    exact ⟨z, hz, (List.mem_filter.mp hz).2, rfl⟩

/-- C7 witness: the sample approved row survives its own fetch and is
approved. -/
theorem C7_public_queries_only_approved_witness :
    sampleRowApproved.approved = true :=
  (C7_public_queries_only_approved [sampleRowApproved]).1
    sampleRowApproved (by decide)

/-- C8: a polygon-mode submit nulls radius_km and keeps a non-null,
non-empty boundary, whose zone row renders as the GeoJSON polygon layer;
and for any fetched zone the rendering is decided by the boundary being
non-null — null boundary renders the radius circle, non-null (non-empty)
boundary renders the polygon, never both. -/
theorem C8_polygon_switch_exclusive (form : SanctuaryFormState)
    (w : SanctuaryWire) (rowId : String) (z : SanctuaryRow) (b : String)
    (hs : handleSubmit .polygon form = some w) :
    w.radius_km = none ∧
    w.boundary ≠ none ∧
    renderZone (zoneOfWire rowId w) = .polygonLayer (w.boundary.getD "") ∧
    (z.boundary = none →
      renderZone z = .circleLayer z.latitude z.longitude z.radius_km) ∧
    (z.boundary = some b → b ≠ "" → renderZone z = .polygonLayer b) := by
  have hcircle : z.boundary = none →
      renderZone z = .circleLayer z.latitude z.longitude z.radius_km := by
    intro hzb; simp [renderZone, hzb]
  have hpoly : z.boundary = some b → b ≠ "" →
      renderZone z = .polygonLayer b := by
    intro hzb hbne; simp [renderZone, hzb, hbne]
  simp only [handleSubmit] at hs
  split at hs
  · simp at hs
  split at hs
  · simp at hs
  split at hs
  · simp at hs
  rename_i htruthy
  have hb : jsTruthy form.boundary = true := by
    revert htruthy; cases jsTruthy form.boundary <;> simp
  obtain ⟨bv, hfb⟩ : ∃ bv, form.boundary = some bv := by
    cases hfb : form.boundary with
    | none => rw [hfb] at hb; simp [jsTruthy] at hb
    | some bv => exact ⟨bv, rfl⟩
  have hbv : bv ≠ "" := by
    rw [hfb] at hb; simpa [jsTruthy] using hb
  obtain rfl : _ = w := Option.some.inj hs
  refine ⟨rfl, ?_, ?_, hcircle, hpoly⟩
  · simp [hfb]
  · simp [zoneOfWire, renderZone, hfb, hbv]

/-- C8 witness: the sample polygon-mode submit, rendered, and the decision
on the sample circle-only row. -/
theorem C8_polygon_switch_exclusive_witness :
    sampleWireP.radius_km = none ∧
    sampleWireP.boundary ≠ none ∧
    renderZone (zoneOfWire "z9" sampleWireP) =
      .polygonLayer (sampleWireP.boundary.getD "") ∧
    (sampleRowApproved.boundary = none →
      renderZone sampleRowApproved =
        .circleLayer sampleRowApproved.latitude sampleRowApproved.longitude
          sampleRowApproved.radius_km) ∧
    (sampleRowApproved.boundary = some "x" → "x" ≠ "" →
      renderZone sampleRowApproved = .polygonLayer "x") :=
  C8_polygon_switch_exclusive sampleForm sampleWireP "z9" sampleRowApproved
    "x" (by decide)

/-- C9 counterexample: a week whose tuesday is closed with stored times
10:00 to 11:00 serializes that day to the literal closed, and re-parsing
restores the default 09:00 to 17:00 times — the round trip does not yield
the original object. -/
theorem C9_counterexample_closed_day_lossy :
    toHoursObj (serializeHours sampleWeek) ≠ sampleWeek := by
  decide

/-- C9 amended: re-parsing the serialized week yields the original object
with every closed day reset to the default times (roundDay): open days with
dash-free times round-trip exactly, while a closed day keeps only its
closed flag. -/
theorem C9_hours_roundtrip_characterised (o : OpeningHours)
    (h : ∀ d ∈ [o.mon, o.tue, o.wed, o.thu, o.fri, o.sat, o.sun],
      containsDash d.open_ = false ∧ containsDash d.close = false) :
    toHoursObj (serializeHours o) =
      { mon := roundDay o.mon, tue := roundDay o.tue, wed := roundDay o.wed
        thu := roundDay o.thu, fri := roundDay o.fri, sat := roundDay o.sat
        sun := roundDay o.sun } := by
  have h1 := h o.mon (by simp)
  have h2 := h o.tue (by simp)
  have h3 := h o.wed (by simp)
  have h4 := h o.thu (by simp)
  have h5 := h o.fri (by simp)
  have h6 := h o.sat (by simp)
  have h7 := h o.sun (by simp)
  simp only [serializeHours, toHoursObj]
  rw [parse_serialize_day o.mon h1.1 h1.2, parse_serialize_day o.tue h2.1 h2.2,
    parse_serialize_day o.wed h3.1 h3.2, parse_serialize_day o.thu h4.1 h4.2,
    parse_serialize_day o.fri h5.1 h5.2, parse_serialize_day o.sat h6.1 h6.2,
    parse_serialize_day o.sun h7.1 h7.2]

/-- C9 witness: the sample week, with an open monday and a closed tuesday. -/
theorem C9_hours_roundtrip_characterised_witness :
    toHoursObj (serializeHours sampleWeek) =
      { mon := roundDay sampleWeek.mon, tue := roundDay sampleWeek.tue
        wed := roundDay sampleWeek.wed, thu := roundDay sampleWeek.thu
        fri := roundDay sampleWeek.fri, sat := roundDay sampleWeek.sat
        sun := roundDay sampleWeek.sun } :=
  C9_hours_roundtrip_characterised sampleWeek (by decide)

/-- C10: with a failed fetch or an empty result array, the geocode handler
returns the form unchanged — latitude and longitude keep their values; only
a non-empty result array reaches the setForm call. -/
theorem C10_geocode_failure_leaves_form (fmt : String → String)
    (address : String) (outcome : GeocodeOutcome)
    (form : SanctuaryFormState)
    (h : outcome = .fetchFailed ∨ outcome = .results []) :
    geocodeUpdate fmt address outcome form = form := by
  rcases h with rfl | rfl <;> unfold geocodeUpdate <;> split <;> rfl

/-- C10 witness: a failed fetch for a non-blank address. -/
theorem C10_geocode_failure_leaves_form_witness :
    geocodeUpdate id "Nidri" .fetchFailed sampleForm = sampleForm :=
  C10_geocode_failure_leaves_form id "Nidri" .fetchFailed sampleForm
    (Or.inl rfl)

end ElaKitty
